import Mathlib

/-!
Shallow embedding of `src/tool-server/server.py`, a small Flask tool server
with five GET routes: /health, /time, /weather, /search, /system.

JSON values are modelled by `JValue` (numbers as `Rat`, since the handlers
only move numeric payloads around and never do float arithmetic on them).
An HTTP response is a status code plus a JSON body.  The outbound HTTP call
of a handler is modelled by an `Upstream` argument (the result the call
would produce: either a parsed JSON document, or an exception carrying its
`str(e)` message); each proxy handler additionally returns a `Bool`
recording whether the outbound call was reached, mirroring the position of
`requests.get` in the source's control flow.
-/

/-- JSON value.  Numbers are rationals: the source never computes with the
payload numbers of /weather and /search, it only extracts and repackages
them, and the /system numbers arise from exact arithmetic on byte counts. -/
inductive JValue where
  | null
  | bool (b : Bool)
  | num (q : Rat)
  | str (s : String)
  | arr (xs : List JValue)
  | obj (fields : List (String × JValue))

/-- Lookup of a key in a JSON object (first binding wins, as in a Python
dict rendered to an association list); `none` on non-objects. -/
def JValue.getKey : JValue → String → Option JValue
  | .obj fs, k => fs.lookup k
  | _, _ => none

/-- Python `d.get(k, default)` on a dict: the stored value when the key is
present (even when that value is `None`/null), the default otherwise. -/
def pyDictGet (fs : List (String × JValue)) (k : String) (default : JValue) : JValue :=
  match fs.lookup k with
  | some v => v
  | none => default

/-- HTTP response: status code and JSON body.  `jsonify(x)` is status 200;
`jsonify(x), 400` / `jsonify(x), 500` carry the explicit status. -/
structure HttpResponse where
  status : Nat
  body : JValue

/-- Result of the outbound `requests.get(...)` followed by `.json()`:
either a parsed JSON document, or an exception (network failure, timeout,
non-JSON body) whose `str(e)` is `msg`. -/
inductive Upstream where
  | ok (data : JValue)
  | raises (msg : String)

/-- Error body `jsonify({'error': msg})`. -/
def errBody (msg : String) : JValue :=
  JValue.obj [("error", JValue.str msg)]

/-- Python truthiness test `not x` on an optional query parameter:
`request.args.get` yields `None` when absent, and the empty string is
falsy, so both fail the `if not lat or not lon` guard. -/
def falsyParam : Option String → Bool
  | none => true
  | some s => s.isEmpty

/-- Python `d[k]`: the value when present, otherwise a raised `KeyError`.
Python renders `str(KeyError(k))` as the key wrapped in single quote
characters; we render the message as `"KeyError " ++ k`, which is empty
exactly when the Python message would be degenerate (it never is for the
literal keys used below).  Indexing a non-object is also modelled as an
error (Python would raise `TypeError`); no claim depends on its message. -/
def jIndex (v : JValue) (k : String) : Except String JValue :=
  match v.getKey k with
  | some w => Except.ok w
  | none => Except.error ("KeyError " ++ k)

/-- Body of the `try` block of `get_weather` after the upstream call: the
six extractions, in the evaluation order of the Python dict literal
`{'temperature': data['current']['temperature_2m'], ...}`; the first
missing key raises. -/
def extractWeather (data : JValue) : Except String JValue := do
  let temperature ← jIndex data "current" >>= (jIndex · "temperature_2m")
  let temperature_unit ← jIndex data "current_units" >>= (jIndex · "temperature_2m")
  let weathercode ← jIndex data "current" >>= (jIndex · "weathercode")
  let windspeed ← jIndex data "current" >>= (jIndex · "windspeed_10m")
  let windspeed_unit ← jIndex data "current_units" >>= (jIndex · "windspeed_10m")
  let timezone ← jIndex data "timezone"
  return JValue.obj [("temperature", temperature),
                     ("temperature_unit", temperature_unit),
                     ("weathercode", weathercode),
                     ("windspeed", windspeed),
                     ("windspeed_unit", windspeed_unit),
                     ("timezone", timezone)]

/-- The `/weather` handler.  `lat`/`lon` are `request.args.get('lat')` /
`request.args.get('lon')`.  The returned `Bool` is whether the outbound
`requests.get` was reached. -/
def get_weather (lat lon : Option String) (upstream : Upstream) :
    HttpResponse × Bool :=
  if falsyParam lat || falsyParam lon then
    (⟨400, errBody "lat and lon parameters required"⟩, false)
  else
    match upstream with
    | .raises msg => (⟨500, errBody msg⟩, true)
    | .ok data =>
      match extractWeather data with
      | .ok body => (⟨200, body⟩, true)
      | .error msg => (⟨500, errBody msg⟩, true)

/-- One entry of the formatted result list: `{'title': r.get('title'),
'url': r.get('url'), 'snippet': r.get('content', '')}`.  `r.get` on a
non-dict raises `AttributeError`; no claim depends on that message. -/
def formatResult (r : JValue) : Except String JValue :=
  match r with
  | .obj fs =>
      Except.ok (JValue.obj [("title", pyDictGet fs "title" JValue.null),
                             ("url", pyDictGet fs "url" JValue.null),
                             ("snippet", pyDictGet fs "content" (JValue.str ""))])
  | _ => Except.error "AttributeError get"

/-- Body of the `for r in ...: results.append(...)` loop: format the
entries in order, accumulating the formatted list; the first failing entry
raises out of the loop. -/
def formatLoop : List JValue → Except String (List JValue)
  | [] => Except.ok []
  | r :: rest => do
      let v ← formatResult r
      let vs ← formatLoop rest
      return v :: vs

/-- The loop `for r in data.get('results', [])[:5]`: slice to the first 5
entries, then format each in order. -/
def formatResults (rs : List JValue) : Except String (List JValue) :=
  formatLoop (rs.take 5)

/-- Evaluation of `data.get('results', [])[:5]` up to the slice: the
`results` value (defaulting to the empty list when the key is absent) must
be a list for the slice and iteration to proceed.  A non-list value is
modelled as an error (in Python only a string would not raise here, and no
claim concerns that case). -/
def resultsField (data : JValue) : Except String (List JValue) :=
  match data with
  | .obj fs =>
      match pyDictGet fs "results" (JValue.arr []) with
      | .arr rs => Except.ok rs
      | _ => Except.error "TypeError results is not a list"
  | _ => Except.error "AttributeError get"

/-- The `/search` handler.  `q` is `request.args.get('q')`.  The returned
`Bool` is whether the outbound `requests.get` was reached. -/
def web_search (q : Option String) (upstream : Upstream) :
    HttpResponse × Bool :=
  if falsyParam q then
    (⟨400, errBody "q parameter required"⟩, false)
  else
    match upstream with
    | .raises msg => (⟨500, errBody msg⟩, true)
    | .ok data =>
      match resultsField data >>= formatResults with
      | .ok results => (⟨200, JValue.obj [("results", JValue.arr results)]⟩, true)
      | .error msg => (⟨500, errBody msg⟩, true)

/-- Naive local timestamp as sampled by `datetime.now()`: calendar fields
plus microseconds.  Two values are the same instant iff they are equal. -/
structure PyDateTime where
  year : Nat
  month : Nat
  day : Nat
  hour : Nat
  minute : Nat
  second : Nat
  microsecond : Nat
deriving DecidableEq

/-- Left zero-padding to width `w`, as in the `%04d`/`%02d`/`%06d`
renderings used by `strftime` and `isoformat`. -/
def zeroPad (w : Nat) (n : Nat) : String :=
  String.mk (List.replicate (w - (toString n).length) (Char.ofNat 48)) ++ toString n

/-- Rendering of `now.strftime('%Y-%m-%d')`. -/
def dateStr (d : PyDateTime) : String :=
  zeroPad 4 d.year ++ "-" ++ zeroPad 2 d.month ++ "-" ++ zeroPad 2 d.day

/-- Rendering of `now.strftime('%H:%M:%S')`. -/
def timeStr (d : PyDateTime) : String :=
  zeroPad 2 d.hour ++ ":" ++ zeroPad 2 d.minute ++ ":" ++ zeroPad 2 d.second

/-- Rendering of `now.isoformat()`: `YYYY-MM-DDTHH:MM:SS`, with a
`.ffffff` fractional part appended exactly when the microsecond component
is nonzero (Python omits it when it is zero). -/
def isoformat (d : PyDateTime) : String :=
  if d.microsecond = 0 then dateStr d ++ "T" ++ timeStr d
  else dateStr d ++ "T" ++ timeStr d ++ "." ++ zeroPad 6 d.microsecond

/-- The timestamp with its sub-second part dropped: the instant that the
`date` and `time` fields of `/time` can jointly represent. -/
def truncToSecond (d : PyDateTime) : PyDateTime :=
  { d with microsecond := 0 }

/-- The `/time` handler.  `now` is the single `datetime.now()` sample taken
at the top of the handler; every field of the body is derived from it.
`tzName` is `now.astimezone().tzname()` (timezone database lookup, no
re-sampling of the clock). -/
def get_time (now : PyDateTime) (tzName : String) : HttpResponse :=
  ⟨200, JValue.obj [("datetime", JValue.str (isoformat now)),
                    ("date", JValue.str (dateStr now)),
                    ("time", JValue.str (timeStr now)),
                    ("timezone", JValue.str tzName)]⟩

/-- Infallible static metrics of the `/system` handler: the `platform.*`
identity strings and the `psutil` CPU/memory/disk readings (memory and
disk sizes in bytes; percentages as exact rationals). -/
structure SysMetrics where
  hostname : String
  kernel : String
  system : String
  version : String
  machine : String
  cpu_percent : Rat
  cpu_count : Nat
  mem_total : Nat
  mem_used : Nat
  mem_percent : Rat
  disk_total : Nat
  disk_used : Nat
  disk_percent : Rat

/-- Rounding to 2 decimal places over the exact rationals.  (Python's
`round` on floats rounds half to even in binary; no claim depends on tie
or representation behaviour, only on the field being a number.) -/
def roundTo2 (q : Rat) : Rat :=
  ((q * 100 + 1 / 2 : Rat).floor : Rat) / 100

/-- Conversion `round(bytes / (1024**3), 2)` to gigabytes. -/
def bytesToGb (bytes : Nat) : Rat :=
  roundTo2 ((bytes : Rat) / (1024 ^ 3 : Rat))

/-- One entry of `psutil.process_iter(['name', 'cpu_percent'])`: the
process name and its CPU reading, which `psutil` reports as `None` when
unavailable. -/
structure ProcInfo where
  name : String
  cpu_percent : Option Rat

/-- Sort key `p.info['cpu_percent'] or 0`: the raw reading with an
unavailable (`None`) reading replaced by zero.  (Python's `or` also maps a
present reading of `0.0` to the integer `0`; as rationals these are the
same value.) -/
def procKey (p : ProcInfo) : Rat :=
  p.cpu_percent.getD 0

/-- Boolean comparison realising `sorted(..., key=..., reverse=True)`:
`a` may precede `b` iff the key of `a` is at least the key of `b`. -/
def procLe (a b : ProcInfo) : Bool :=
  decide (procKey b ≤ procKey a)

/-- Output entry of the top-process list: the name together with the raw
`cpu_percent` reading, still null when the reading was unavailable. -/
def renderProc (p : ProcInfo) : JValue :=
  JValue.obj [("name", JValue.str p.name),
              ("cpu_percent", match p.cpu_percent with
                              | none => JValue.null
                              | some q => JValue.num q)]

/-- The top-process computation of `/system`: sort all processes
descending by the zero-substituted key, keep the first 5, and emit each
one's name and raw reading. -/
def topProcesses (procs : List ProcInfo) : List JValue :=
  ((procs.mergeSort procLe).take 5).map renderProc

/-- Python `str.strip()` on subprocess output (Lean's `trim` strips the
same whitespace on the inputs that occur here). -/
def pyStrip (s : String) : String :=
  s.trim

/-- The `.strip().split('\n')` lines with the falsy (empty) ones filtered
out, as in `[f for f in flatpaks if f]`. -/
def nonEmptyLines (out : String) : List String :=
  ((pyStrip out).splitOn "\n").filter (fun l => !l.isEmpty)

/-- Prefix test on character lists (explicit, to keep the counting loop
self-contained). -/
def listStartsWith : List Char → List Char → Bool
  | [], _ => true
  | _ :: _, [] => false
  | p :: ps, c :: cs => p == c && listStartsWith ps cs

/-- Left-to-right non-overlapping count of the nonempty pattern
`p :: ps` in a character list, as in Python `str.count`. -/
def countOccAux (p : Char) (ps : List Char) : List Char → Nat
  | [] => 0
  | c :: rest =>
      if listStartsWith (p :: ps) (c :: rest) then
        countOccAux p ps (rest.drop ps.length) + 1
      else
        countOccAux p ps rest
termination_by s => s.length
decreasing_by
  · simp only [List.length_drop, List.length_cons]
    omega
  · simp only [List.length_cons]
    omega

/-- Python `s.count(pat)` (for empty `pat` Python returns `len(s) + 1`). -/
def pyCount (pat s : String) : Nat :=
  match pat.data with
  | [] => s.data.length + 1
  | p :: ps => countOccAux p ps s.data

/-- The `/system` handler.  The three optional subprocess probes are given
as the decoded stdout of the corresponding `subprocess.check_output` call
when it succeeds, `none` when it raises (missing binary, non-zero exit);
`procs` is the process enumeration.  Body fields appear in the source's
insertion order. -/
def system_info (s : SysMetrics) (gnomeOut flatpakOut dpkgOut : Option String)
    (procs : List ProcInfo) : HttpResponse :=
  ⟨200, JValue.obj
    ([("hostname", JValue.str s.hostname),
      ("kernel", JValue.str s.kernel),
      ("os", JValue.str (s.system ++ " " ++ s.version)),
      ("architecture", JValue.str s.machine),
      ("cpu_percent", JValue.num s.cpu_percent),
      ("cpu_count", JValue.num (s.cpu_count : Rat)),
      ("memory_total_gb", JValue.num (bytesToGb s.mem_total)),
      ("memory_used_gb", JValue.num (bytesToGb s.mem_used)),
      ("memory_percent", JValue.num s.mem_percent),
      ("disk_total_gb", JValue.num (bytesToGb s.disk_total)),
      ("disk_used_gb", JValue.num (bytesToGb s.disk_used)),
      ("disk_percent", JValue.num s.disk_percent)]
     ++ [("gnome_version", JValue.str
            (match gnomeOut with
             | some out => pyStrip out
             | none => "unknown"))]
     ++ (match flatpakOut with
         | some out =>
             [("flatpak_count", JValue.num ((nonEmptyLines out).length : Rat)),
              ("flatpak_apps", JValue.arr (((nonEmptyLines out).take 10).map JValue.str))]
         | none =>
             [("flatpak_count", JValue.num 0),
              ("flatpak_apps", JValue.arr [])])
     ++ [("apt_packages_count", JValue.num
            ((match dpkgOut with
              | some out => pyCount "\nii " out
              | none => 0) : Rat))]
     ++ [("top_processes", JValue.arr (topProcesses procs))])⟩

/-- Description of one `subprocess.check_output` invocation: its argv,
whether stderr is sent to `DEVNULL`, and the `timeout=` keyword argument
when one is passed. -/
structure SubprocessCall where
  argv : List String
  devnullStderr : Bool
  timeoutSeconds : Option Rat

/-- The `gnome-shell --version` probe as invoked by `/system`. -/
def gnomeVersionCall : SubprocessCall :=
  ⟨["gnome-shell", "--version"], true, none⟩

/-- The `flatpak list --app --columns=application` probe as invoked by
`/system`. -/
def flatpakListCall : SubprocessCall :=
  ⟨["flatpak", "list", "--app", "--columns=application"], true, none⟩

/-- The `dpkg -l` probe as invoked by `/system`. -/
def dpkgListCall : SubprocessCall :=
  ⟨["dpkg", "-l"], true, none⟩

/-- Shape of one formatted search result as a function of the upstream
entry: title and url via `r.get` (null when absent), snippet via
`r.get('content', '')` — the stored value when the key is present (even
when it is null), the empty string only when the key is absent. -/
def searchEntry (r : JValue) : JValue :=
  match r with
  | .obj gs =>
      JValue.obj [("title", pyDictGet gs "title" JValue.null),
                  ("url", pyDictGet gs "url" JValue.null),
                  ("snippet", pyDictGet gs "content" (JValue.str ""))]
  | _ => JValue.null

/-- On a list of JSON objects the formatting loop succeeds and maps each
entry to its `searchEntry` shape, in order. -/
theorem formatLoop_ok (l : List JValue)
    (h : ∀ r ∈ l, ∃ gs, r = JValue.obj gs) :
    formatLoop l = Except.ok (l.map searchEntry) := by
  induction l with
  | nil => rfl
  | cons a as ih =>
      obtain ⟨gs, ha⟩ := h a (List.mem_cons_self a as)
      subst ha
      have hrec := ih (fun r hr => h r (List.mem_cons_of_mem _ hr))
      simp [formatLoop, formatResult, searchEntry, hrec, bind, Except.bind, pure, Except.pure]

/-- An `Except` bind fails exactly when its first stage fails with the
same message or its first stage succeeds and the continuation fails. -/
theorem except_bind_error {α β : Type} {a : Except String α} {f : α → Except String β}
    {e : String} (h : a >>= f = Except.error e) :
    a = Except.error e ∨ ∃ v, a = Except.ok v ∧ f v = Except.error e := by
  cases a with
  | error e2 =>
      left
      simpa [bind, Except.bind] using h
  | ok v =>
      right
      exact ⟨v, rfl, by simpa [bind, Except.bind] using h⟩

/-- A failing `d[k]` lookup carries the key in its message. -/
theorem jIndex_error {v : JValue} {k e : String} (h : jIndex v k = Except.error e) :
    e = "KeyError " ++ k := by
  unfold jIndex at h
  cases hv : v.getKey k <;> simp [hv] at h
  exact h.symm

/-- Key-error messages are never the empty string. -/
theorem keyError_ne (k : String) : ("KeyError " ++ k) ≠ "" := by
  intro h
  have hl := congrArg String.length h
  simp [String.length_append] at hl
  exact absurd hl.1 (by decide)

/-- A failing two-step lookup `d[k1][k2]` carries one of the two keys in
its message. -/
theorem jChain_error {v : JValue} {k1 k2 e : String}
    (h : (jIndex v k1 >>= (jIndex · k2)) = Except.error e) :
    e = "KeyError " ++ k1 ∨ e = "KeyError " ++ k2 := by
  rcases except_bind_error h with h1 | ⟨w, _, h2⟩
  · exact Or.inl (jIndex_error h1)
  · exact Or.inr (jIndex_error h2)

/-- Whenever the weather extraction fails, its message (a key error for
one of the six extracted paths) is a non-empty string. -/
theorem extractWeather_error_ne (data : JValue) (em : String)
    (hex : extractWeather data = Except.error em) : em ≠ "" := by
  unfold extractWeather at hex
  rcases except_bind_error hex with h | ⟨t, _, hex⟩
  · rcases jChain_error h with rfl | rfl <;> exact keyError_ne _
  rcases except_bind_error hex with h | ⟨tu, _, hex⟩
  · rcases jChain_error h with rfl | rfl <;> exact keyError_ne _
  rcases except_bind_error hex with h | ⟨wc, _, hex⟩
  · rcases jChain_error h with rfl | rfl <;> exact keyError_ne _
  rcases except_bind_error hex with h | ⟨ws, _, hex⟩
  · rcases jChain_error h with rfl | rfl <;> exact keyError_ne _
  rcases except_bind_error hex with h | ⟨wsu, _, hex⟩
  · rcases jChain_error h with rfl | rfl <;> exact keyError_ne _
  rcases except_bind_error hex with h | ⟨tz, _, hex⟩
  · rw [jIndex_error h]; exact keyError_ne _
  · simp [pure, Except.pure] at hex

/-- The process comparison is transitive. -/
theorem procLe_trans (a b c : ProcInfo) (hab : procLe a b = true)
    (hbc : procLe b c = true) : procLe a c = true := by
  simp only [procLe, decide_eq_true_eq] at *
  exact le_trans hbc hab

/-- The process comparison is total. -/
theorem procLe_total (a b : ProcInfo) : (procLe a b || procLe b a) = true := by
  simp only [procLe, Bool.or_eq_true, decide_eq_true_eq]
  exact le_total _ _

/-- C1: for every /weather request missing the lat or the lon query
parameter, and every /search request missing q, the handler returns
status 400 with a JSON body containing an `error` field, and the
outbound upstream call is not reached. -/
theorem missing_params_yield_400_and_no_upstream_call
    (lat lon q : Option String) (u v : Upstream)
    (hw : lat = none ∨ lon = none) (hq : q = none) :
    ((get_weather lat lon u).1.status = 400
      ∧ ((get_weather lat lon u).1.body.getKey "error").isSome
      ∧ (get_weather lat lon u).2 = false)
    ∧ ((web_search q v).1.status = 400
      ∧ ((web_search q v).1.body.getKey "error").isSome
      ∧ (web_search q v).2 = false) := by
  subst hq
  rcases hw with rfl | rfl <;>
    simp [get_weather, web_search, falsyParam, errBody, JValue.getKey]

/-- C1 witness: concrete instance with lat missing, lon present, q
missing, and arbitrary fixed upstreams. -/
theorem missing_params_yield_400_and_no_upstream_call_witness :
    ((get_weather none (some "13.4") (Upstream.ok (JValue.obj []))).1.status = 400
      ∧ ((get_weather none (some "13.4") (Upstream.ok (JValue.obj []))).1.body.getKey
          "error").isSome
      ∧ (get_weather none (some "13.4") (Upstream.ok (JValue.obj []))).2 = false)
    ∧ ((web_search none (Upstream.ok (JValue.obj []))).1.status = 400
      ∧ ((web_search none (Upstream.ok (JValue.obj []))).1.body.getKey "error").isSome
      ∧ (web_search none (Upstream.ok (JValue.obj []))).2 = false) :=
  missing_params_yield_400_and_no_upstream_call none (some "13.4") none
    (Upstream.ok (JValue.obj [])) (Upstream.ok (JValue.obj [])) (Or.inl rfl) rfl

/-- C10: a present-but-empty lat, lon or q parameter is falsy in Python,
so the handlers behave exactly as in the missing-parameter case: the
response is identical to the one for an absent parameter, namely 400
with an `error` field and no upstream call reached. -/
theorem empty_params_behave_exactly_as_missing
    (lat lon : Option String) (u₁ u₂ u₃ v : Upstream) :
    (get_weather (some "") lon u₁ = get_weather none lon u₁
      ∧ get_weather lat (some "") u₂ = get_weather lat none u₂
      ∧ web_search (some "") v = web_search none v)
    ∧ ((get_weather (some "") lon u₃).1.status = 400
      ∧ ((get_weather (some "") lon u₃).1.body.getKey "error").isSome
      ∧ (get_weather (some "") lon u₃).2 = false)
    ∧ ((web_search (some "") v).1.status = 400
      ∧ ((web_search (some "") v).1.body.getKey "error").isSome
      ∧ (web_search (some "") v).2 = false) := by
  simp [get_weather, web_search, falsyParam, errBody, JValue.getKey, String.isEmpty_iff]

/-- C2: for a /weather request with both parameters present and
non-empty, when the upstream JSON contains the six expected paths, the
success response is exactly the object with the six extracted values
under the keys temperature, temperature_unit, weathercode, windspeed,
windspeed_unit and timezone. -/
theorem weather_success_reshapes_upstream
    (lat lon : String) (hlat : lat ≠ "") (hlon : lon ≠ "")
    (data cur units t tu wc ws wsu tz : JValue)
    (hcur : data.getKey "current" = some cur)
    (hunits : data.getKey "current_units" = some units)
    (ht : cur.getKey "temperature_2m" = some t)
    (htu : units.getKey "temperature_2m" = some tu)
    (hwc : cur.getKey "weathercode" = some wc)
    (hws : cur.getKey "windspeed_10m" = some ws)
    (hwsu : units.getKey "windspeed_10m" = some wsu)
    (htz : data.getKey "timezone" = some tz) :
    get_weather (some lat) (some lon) (Upstream.ok data)
      = (⟨200, JValue.obj
            [("temperature", t), ("temperature_unit", tu),
             ("weathercode", wc), ("windspeed", ws),
             ("windspeed_unit", wsu), ("timezone", tz)]⟩, true) := by
  simp [get_weather, falsyParam, String.isEmpty_iff, hlat, hlon,
        extractWeather, jIndex, bind, Except.bind, pure, Except.pure,
        hcur, hunits, ht, htu, hwc, hws, hwsu, htz]

/-- Stub weather upstream of the spec: temperature 21.5 °C, weathercode
3, windspeed 12.0 km/h, timezone Europe/Berlin. -/
def weatherStub : JValue :=
  JValue.obj
    [("current", JValue.obj
        [("temperature_2m", JValue.num (21.5 : Rat)),
         ("weathercode", JValue.num 3),
         ("windspeed_10m", JValue.num (12.0 : Rat))]),
     ("current_units", JValue.obj
        [("temperature_2m", JValue.str "°C"),
         ("windspeed_10m", JValue.str "km/h")]),
     ("timezone", JValue.str "Europe/Berlin")]

/-- C2 witness: /weather?lat=52.5&lon=13.4 against the stub upstream
returns exactly the stub reshaped. -/
theorem weather_success_reshapes_upstream_witness :
    get_weather (some "52.5") (some "13.4") (Upstream.ok weatherStub)
      = (⟨200, JValue.obj
            [("temperature", JValue.num (21.5 : Rat)),
             ("temperature_unit", JValue.str "°C"),
             ("weathercode", JValue.num 3),
             ("windspeed", JValue.num (12.0 : Rat)),
             ("windspeed_unit", JValue.str "km/h"),
             ("timezone", JValue.str "Europe/Berlin")]⟩, true) :=
  weather_success_reshapes_upstream "52.5" "13.4" (by decide) (by decide)
    weatherStub _ _ _ _ _ _ _ _ rfl rfl rfl rfl rfl rfl rfl rfl

/-- C3 counterexample: with a results entry whose `content` field is
present but null, the emitted snippet is null, not the empty string the
claim requires for a null source field. -/
theorem search_null_content_snippet_counterexample :
    (web_search (some "test") (Upstream.ok (JValue.obj [("results", JValue.arr
        [JValue.obj [("title", JValue.str "t1"), ("url", JValue.str "u1"),
                     ("content", JValue.null)]])]))).1
      = ⟨200, JValue.obj [("results", JValue.arr
          [JValue.obj [("title", JValue.str "t1"), ("url", JValue.str "u1"),
                       ("snippet", JValue.null)]])]⟩
    ∧ JValue.null ≠ JValue.str "" := by
  refine ⟨rfl, ?_⟩
  intro h
  exact JValue.noConfusion h

/-- C3 (amended): for a /search request with q present and non-empty,
when the upstream object's `results` value is a list (defaulting to the
empty list when absent) whose first min(5, length) entries are objects,
the response is 200 and its results are exactly those first entries in
their original order, mapped to {title, url, snippet}, where snippet
equals the upstream `content` value whenever the field is present (even
if null) and defaults to the empty string only when it is absent. -/
theorem search_first_five_results_in_order (q : String) (hq : q ≠ "")
    (fs : List (String × JValue)) (rs : List JValue)
    (hres : pyDictGet fs "results" (JValue.arr []) = JValue.arr rs)
    (hobj : ∀ r ∈ rs.take 5, ∃ gs, r = JValue.obj gs) :
    web_search (some q) (Upstream.ok (JValue.obj fs))
      = (⟨200, JValue.obj [("results",
            JValue.arr ((rs.take 5).map searchEntry))]⟩, true) := by
  have h1 : resultsField (JValue.obj fs) = Except.ok rs := by
    simp [resultsField, hres]
  have h2 : formatResults rs = Except.ok ((rs.take 5).map searchEntry) :=
    formatLoop_ok (rs.take 5) hobj
  simp [web_search, falsyParam, String.isEmpty_iff, hq, h1, h2, bind, Except.bind]

/-- Stub search upstream of the spec: 8 results, the `content` field
absent on some of the first 5 entries. -/
def searchStub : List JValue :=
  [JValue.obj [("title", JValue.str "t1"), ("url", JValue.str "u1")],
   JValue.obj [("title", JValue.str "t2"), ("url", JValue.str "u2"),
               ("content", JValue.str "c2")],
   JValue.obj [("title", JValue.str "t3"), ("url", JValue.str "u3")],
   JValue.obj [("title", JValue.str "t4"), ("url", JValue.str "u4"),
               ("content", JValue.str "c4")],
   JValue.obj [("title", JValue.str "t5"), ("url", JValue.str "u5")],
   JValue.obj [("title", JValue.str "t6"), ("url", JValue.str "u6")],
   JValue.obj [("title", JValue.str "t7"), ("url", JValue.str "u7")],
   JValue.obj [("title", JValue.str "t8"), ("url", JValue.str "u8")]]

/-- C3 witness: /search?q=test against the 8-result stub returns exactly
the first 5 entries in order, snippet defaulted to the empty string where
`content` is absent. -/
theorem search_first_five_results_in_order_witness :
    web_search (some "test") (Upstream.ok (JValue.obj [("results", JValue.arr searchStub)]))
      = (⟨200, JValue.obj [("results", JValue.arr
          [JValue.obj [("title", JValue.str "t1"), ("url", JValue.str "u1"),
                       ("snippet", JValue.str "")],
           JValue.obj [("title", JValue.str "t2"), ("url", JValue.str "u2"),
                       ("snippet", JValue.str "c2")],
           JValue.obj [("title", JValue.str "t3"), ("url", JValue.str "u3"),
                       ("snippet", JValue.str "")],
           JValue.obj [("title", JValue.str "t4"), ("url", JValue.str "u4"),
                       ("snippet", JValue.str "c4")],
           JValue.obj [("title", JValue.str "t5"), ("url", JValue.str "u5"),
                       ("snippet", JValue.str "")]])]⟩, true) :=
  (search_first_five_results_in_order "test" (by decide)
    [("results", JValue.arr searchStub)] searchStub rfl
    (by intro r hr
        simp [searchStub] at hr
        rcases hr with rfl | rfl | rfl | rfl | rfl <;> exact ⟨_, rfl⟩)).trans rfl

/-- C4: for /weather and /search requests with the required parameters
present and non-empty, a raising upstream call yields status 500 with the
error body carrying the textual description of the failure, and a
successful call whose JSON misses an expected weather field yields status
500 with a non-empty key-error description. -/
theorem upstream_failure_500_with_error_description
    (lat lon q m em : String)
    (hlat : lat ≠ "") (hlon : lon ≠ "") (hq : q ≠ "") (hm : m ≠ "")
    (data : JValue) (hex : extractWeather data = Except.error em) :
    ((get_weather (some lat) (some lon) (Upstream.raises m)).1
        = ⟨500, errBody m⟩
      ∧ (web_search (some q) (Upstream.raises m)).1 = ⟨500, errBody m⟩
      ∧ m ≠ "")
    ∧ ((get_weather (some lat) (some lon) (Upstream.ok data)).1
        = ⟨500, errBody em⟩
      ∧ em ≠ "") := by
  refine ⟨⟨?_, ?_, hm⟩, ?_, extractWeather_error_ne data em hex⟩ <;>
    simp [get_weather, web_search, falsyParam, String.isEmpty_iff, hlat, hlon, hq, hex]

/-- C4 witness: a timed-out upstream for both routes, and an upstream
JSON missing the `current` block for /weather. -/
theorem upstream_failure_500_with_error_description_witness :
    ((get_weather (some "52.5") (some "13.4") (Upstream.raises "ReadTimeout")).1
        = ⟨500, errBody "ReadTimeout"⟩
      ∧ (web_search (some "penguins") (Upstream.raises "ReadTimeout")).1
        = ⟨500, errBody "ReadTimeout"⟩
      ∧ "ReadTimeout" ≠ "")
    ∧ ((get_weather (some "52.5") (some "13.4") (Upstream.ok (JValue.obj []))).1
        = ⟨500, errBody "KeyError current"⟩
      ∧ "KeyError current" ≠ "") :=
  upstream_failure_500_with_error_description "52.5" "13.4" "penguins"
    "ReadTimeout" "KeyError current"
    (by decide) (by decide) (by decide) (by decide) (JValue.obj []) rfl

/-- C5: when all three optional subprocess probes fail, /system still
returns status 200, the desktop-shell field is the literal "unknown",
both package counts are 0, the package list is empty, and every required
numeric field is present with its metric value. -/
theorem system_all_probes_failing_uses_sentinels
    (s : SysMetrics) (procs : List ProcInfo) :
    (system_info s none none none procs).status = 200
    ∧ (system_info s none none none procs).body.getKey "gnome_version"
        = some (JValue.str "unknown")
    ∧ (system_info s none none none procs).body.getKey "flatpak_count"
        = some (JValue.num 0)
    ∧ (system_info s none none none procs).body.getKey "flatpak_apps"
        = some (JValue.arr [])
    ∧ (system_info s none none none procs).body.getKey "apt_packages_count"
        = some (JValue.num 0)
    ∧ (system_info s none none none procs).body.getKey "cpu_percent"
        = some (JValue.num s.cpu_percent)
    ∧ (system_info s none none none procs).body.getKey "cpu_count"
        = some (JValue.num (s.cpu_count : Rat))
    ∧ (system_info s none none none procs).body.getKey "memory_total_gb"
        = some (JValue.num (bytesToGb s.mem_total))
    ∧ (system_info s none none none procs).body.getKey "memory_used_gb"
        = some (JValue.num (bytesToGb s.mem_used))
    ∧ (system_info s none none none procs).body.getKey "memory_percent"
        = some (JValue.num s.mem_percent)
    ∧ (system_info s none none none procs).body.getKey "disk_total_gb"
        = some (JValue.num (bytesToGb s.disk_total))
    ∧ (system_info s none none none procs).body.getKey "disk_used_gb"
        = some (JValue.num (bytesToGb s.disk_used))
    ∧ (system_info s none none none procs).body.getKey "disk_percent"
        = some (JValue.num s.disk_percent) :=
  ⟨rfl, rfl, rfl, rfl, rfl, rfl, rfl, rfl, rfl, rfl, rfl, rfl, rfl⟩

/-- C6: the top_processes field consists of the first 5 processes of a
descending sort by the zero-substituted CPU key: it is the rendering
(name plus raw, possibly null, cpu_percent) of a selection `sel` of
min(5, n) processes, the selection together with the remainder is a
permutation of all enumerated processes, the selection is sorted
descending by the substituted key, and every process left out has a key
no larger than every selected one. -/
theorem top_processes_first_five_by_descending_cpu
    (s : SysMetrics) (g f d : Option String) (procs : List ProcInfo) :
    ∃ sel rest : List ProcInfo,
      (system_info s g f d procs).body.getKey "top_processes"
          = some (JValue.arr (sel.map renderProc))
      ∧ procs.Perm (sel ++ rest)
      ∧ sel.length = min 5 procs.length
      ∧ sel.Pairwise (fun a b => procKey b ≤ procKey a)
      ∧ ∀ p ∈ rest, ∀ o ∈ sel, procKey p ≤ procKey o := by
  refine ⟨(procs.mergeSort procLe).take 5, (procs.mergeSort procLe).drop 5,
          ?_, ?_, ?_, ?_, ?_⟩
  · cases f <;> rfl
  · rw [List.take_append_drop]
    exact (List.mergeSort_perm procs procLe).symm
  · rw [List.length_take, (List.mergeSort_perm procs procLe).length_eq]
  · have pw := @List.sorted_mergeSort ProcInfo procLe procLe_trans procLe_total procs
    have pw2 : (procs.mergeSort procLe).Pairwise (fun a b => procKey b ≤ procKey a) :=
      pw.imp (fun h => by simpa [procLe] using h)
    exact pw2.sublist (List.take_sublist 5 _)
  · have pw := @List.sorted_mergeSort ProcInfo procLe procLe_trans procLe_total procs
    have pw2 : (procs.mergeSort procLe).Pairwise (fun a b => procKey b ≤ procKey a) :=
      pw.imp (fun h => by simpa [procLe] using h)
    rw [← List.take_append_drop 5 (procs.mergeSort procLe)] at pw2
    intro p hp o ho
    exact (List.pairwise_append.mp pw2).2.2 o ho p hp

/-- C7 counterexample: at a sample with a nonzero microsecond component
the concatenation of the date and time fields differs from the datetime
field, and the second-truncated sample is a different instant from the
sample itself, so the concatenation does not reconstruct the same instant
as datetime. -/
theorem time_concat_drops_microseconds_counterexample :
    (get_time ⟨2024, 1, 2, 3, 4, 5, 500000⟩ "CET").body.getKey "date"
        = some (JValue.str "2024-01-02")
    ∧ (get_time ⟨2024, 1, 2, 3, 4, 5, 500000⟩ "CET").body.getKey "time"
        = some (JValue.str "03:04:05")
    ∧ (get_time ⟨2024, 1, 2, 3, 4, 5, 500000⟩ "CET").body.getKey "datetime"
        = some (JValue.str "2024-01-02T03:04:05.500000")
    ∧ "2024-01-02" ++ "T" ++ "03:04:05" ≠ "2024-01-02T03:04:05.500000"
    ∧ truncToSecond ⟨2024, 1, 2, 3, 4, 5, 500000⟩ ≠ ⟨2024, 1, 2, 3, 4, 5, 500000⟩ :=
  ⟨rfl, rfl, rfl, by decide, by decide⟩

/-- C7 (amended): every /time field is derived from the single sampled
timestamp, and concatenating the date and time fields reconstructs the
sampled instant truncated to whole seconds — which is the same instant as
the datetime field exactly when the sampled microsecond component is
zero. -/
theorem time_fields_single_sample_truncated_concat
    (now : PyDateTime) (tz : String) :
    (get_time now tz).body.getKey "datetime" = some (JValue.str (isoformat now))
    ∧ (get_time now tz).body.getKey "date" = some (JValue.str (dateStr now))
    ∧ (get_time now tz).body.getKey "time" = some (JValue.str (timeStr now))
    ∧ (get_time now tz).body.getKey "timezone" = some (JValue.str tz)
    ∧ dateStr now ++ "T" ++ timeStr now = isoformat (truncToSecond now)
    ∧ (truncToSecond now = now ↔ now.microsecond = 0) := by
  obtain ⟨y, mo, dy, h, mi, sec, us⟩ := now
  refine ⟨rfl, rfl, rfl, rfl, rfl, ?_⟩
  simp [truncToSecond, PyDateTime.mk.injEq, eq_comm]

/-- C8: on a successful flatpak probe, the reported count is the number
of non-blank (non-empty) lines of the stripped output, and the reported
list is exactly the first min(10, count) of those lines, in the order
produced by the manager. -/
theorem flatpak_success_count_and_first_ten
    (s : SysMetrics) (g d : Option String) (out : String)
    (procs : List ProcInfo) :
    (system_info s g (some out) d procs).body.getKey "flatpak_count"
        = some (JValue.num ((nonEmptyLines out).length : Rat))
    ∧ (system_info s g (some out) d procs).body.getKey "flatpak_apps"
        = some (JValue.arr (((nonEmptyLines out).take 10).map JValue.str))
    ∧ nonEmptyLines out = ((pyStrip out).splitOn "\n").filter (fun l => !l.isEmpty)
    ∧ ((nonEmptyLines out).take 10).length = min 10 (nonEmptyLines out).length :=
  ⟨rfl, rfl, rfl, List.length_take 10 (nonEmptyLines out)⟩

/-- C9: none of the three subprocess probe invocations of /system passes
a timeout bound — each `check_output` call is issued with no `timeout=`
argument, so an unresponsive probe blocks the snapshot indefinitely
(contradicting the required bounded-timeout hardening). -/
theorem system_probe_calls_have_no_timeout :
    gnomeVersionCall.timeoutSeconds = none
    ∧ flatpakListCall.timeoutSeconds = none
    ∧ dpkgListCall.timeoutSeconds = none :=
  ⟨rfl, rfl, rfl⟩
